import Mathlib

/-!
Verification of the OAuth 2.0 Authorization-Code-with-PKCE core of the
Vision desktop application (src/src-tauri/src/auth/mod.rs).

The Rust module is shallowly embedded as pure Lean functions:
  * process-wide state (in-memory pending login, single-flight processing
    flag, cached provider config) together with the durable store
    (auth.json keys oauth_pending / oauth_provider / tokens) and the OS
    credential vault is one explicit state record, `AuthState`;
  * clock reads (`now_epoch`, `Instant::elapsed`) are modelled by an
    explicit `now : Int` parameter, with the monotonic and wall clocks
    advancing in lockstep (no clock adjustment during one invocation);
  * the token-endpoint HTTP round-trip is a parameter of type `HttpReply`
    describing the provider's answer (transport failure, non-2xx status,
    or a parsed 2xx JSON body);
  * storage primitives that in Rust can only fail on filesystem or
    serde faults are total here (those fault paths are outside every
    claim being checked).
-/

namespace VisionAuth

/-- Mirrors `ProviderConfig` (auth/mod.rs lines 54-64); the two
`HashMap<String, String>` extras become association lists. -/
structure ProviderConfig where
  client_id : String
  client_secret : Option String
  authorization_endpoint : String
  token_endpoint : String
  redirect_uri : String
  scopes : List String
  extra_auth_params : Option (List (String × String))
  extra_token_params : Option (List (String × String))
deriving DecidableEq

/-- Mirrors `TokenSet` (lines 74-79): epoch seconds as `Int` for i64. -/
structure TokenSet where
  access_token : String
  refresh_token : Option String
  expires_at : Int
deriving DecidableEq

/-- Mirrors the in-memory `PendingAuth` (lines 81-87); the
`Instant` creation time is kept in epoch seconds. -/
structure PendingAuth where
  state : String
  code_verifier : String
  provider : ProviderConfig
  created_at : Int
deriving DecidableEq

/-- Mirrors the durable `PendingAuthRecord` (lines 89-95). -/
structure PendingAuthRecord where
  state : String
  code_verifier : String
  provider : ProviderConfig
  created_at_epoch : Int
deriving DecidableEq

/-- Mirrors `AuthStatus` (lines 113-117). -/
structure AuthStatus where
  is_authenticated : Bool
  expires_at : Option Int
deriving DecidableEq

/-- The process-wide `AuthState` (lines 97-101) extended with the durable
backends it talks to: the `auth.json` store entries for the pending
record, the provider config and the token fallback, the keyring vault
entry, and whether the vault accepts writes (`set_password` succeeding). -/
structure AuthState where
  pending : Option PendingAuth
  processing : Bool
  provider : Option ProviderConfig
  store_pending : Option PendingAuthRecord
  store_provider : Option ProviderConfig
  store_tokens : Option TokenSet
  vault_tokens : Option TokenSet
  vault_writable : Bool
deriving DecidableEq

/-- Mirrors `AuthError` (lines 24-52); `StatusCode` becomes `Nat`. -/
inductive AuthError where
  | InvalidRedirectUrl
  | MissingCode
  | MissingState
  | StateMismatch
  | PendingExpired
  | NoPendingState
  | AuthorizationDenied (description : String)
  | TokenExchangeFailed (status : Nat)
  | RefreshTokenMissing
  | ProviderConfigMissing
  | Storage (msg : String)
  | Request (msg : String)
  | Serialization (msg : String)
deriving DecidableEq

/-- Mirrors the deserialized `TokenResponse` (lines 362-367). -/
structure TokenResponse where
  access_token : String
  refresh_token : Option String
  expires_in : Option Int
deriving DecidableEq

/-- The provider's answer to one token-endpoint POST: a reqwest
transport or JSON-decoding failure, a non-2xx status, or a parsed
2xx body. -/
inductive HttpReply where
  | transportError (msg : String)
  | failureStatus (status : Nat)
  | success (token : TokenResponse)
deriving DecidableEq

/-- A parsed callback URL, reduced to what the auth module consumes:
the decoded `query_pairs()` sequence (url crate form-urlencoded
decoding already applied). -/
structure CallbackUrl where
  query_pairs : List (String × String)
deriving DecidableEq

/-- `PENDING_TTL` (line 15), in seconds. -/
def PENDING_TTL : Int := 600

/-- `REFRESH_WINDOW_SECS` (line 22). -/
def REFRESH_WINDOW_SECS : Int := 60

/-- Mirrors `extract_query` (lines 677-681): first pair whose key
matches, value projected. -/
def extract_query (url : CallbackUrl) (key : String) : Option String :=
  (url.query_pairs.find? (fun p => p.1 == key)).map (fun p => p.2)

/-- Mirrors `load_tokens` (lines 478-490): the keyring entry wins when
readable, otherwise fall back to the `auth.json` store. -/
def load_tokens (σ : AuthState) : Option TokenSet :=
  match σ.vault_tokens with
  | some tokens => some tokens
  | none => σ.store_tokens

/-- Mirrors `save_tokens` (lines 492-505): write the vault when
`set_password` succeeds, else fall back to the `auth.json` store. -/
def save_tokens (σ : AuthState) (tokens : TokenSet) : AuthState :=
  if σ.vault_writable then { σ with vault_tokens := some tokens }
  else { σ with store_tokens := some tokens }

/-- Mirrors `persist_provider` (lines 516-527). -/
def persist_provider (σ : AuthState) (provider : ProviderConfig) : AuthState :=
  { σ with store_provider := some provider }

/-- Mirrors `clear_pending_store` (lines 583-592). -/
def clear_pending_store (σ : AuthState) : AuthState :=
  { σ with store_pending := none }

/-- Mirrors `clear_pending` (lines 617-622): drop the in-memory record
and the durable copy. -/
def clear_pending (σ : AuthState) : AuthState :=
  { σ with pending := none, store_pending := none }

/-- Mirrors `consume_pending` (lines 594-615): take the in-memory record
(rebuilding its epoch creation time from `Instant::elapsed`), else read
the durable record, failing with `NoPendingState` before any clear when
both are absent; on success the durable copy is deleted. -/
def consume_pending (σ : AuthState) (now : Int) :
    AuthState × Except AuthError PendingAuthRecord :=
  match σ.pending with
  | some p =>
      let elapsed : Int := now - p.created_at
      (clear_pending_store { σ with pending := none },
       Except.ok { state := p.state, code_verifier := p.code_verifier,
                   provider := p.provider, created_at_epoch := now - elapsed })
  | none =>
      match σ.store_pending with
      | some stored =>
          (clear_pending_store { σ with pending := none }, Except.ok stored)
      | none =>
          ({ σ with pending := none }, Except.error AuthError.NoPendingState)

/-- Mirrors `ProcessingGuard::drop` (lines 707-713): the single-flight
flag is reset on every exit path. -/
def release (σ : AuthState) : AuthState :=
  { σ with processing := false }

/-- Mirrors `exchange_code_for_token` (lines 369-422) given the
provider's reply; `expires_in` defaults to 3600. -/
def exchange_code_for_token (provider : ProviderConfig) (code : String)
    (code_verifier : String) (reply : HttpReply) (now : Int) :
    Except AuthError TokenSet :=
  match reply with
  | HttpReply.transportError msg => Except.error (AuthError.Request msg)
  | HttpReply.failureStatus status =>
      Except.error (AuthError.TokenExchangeFailed status)
  | HttpReply.success token =>
      let expires_in := token.expires_in.getD 3600
      Except.ok { access_token := token.access_token,
                  refresh_token := token.refresh_token,
                  expires_at := now + expires_in }

/-- Mirrors `refresh_tokens` (lines 424-476): same shape as the code
exchange, except that a response omitting `refresh_token` carries the
previous refresh token forward (`token.refresh_token.or_else`). -/
def refresh_tokens (provider : ProviderConfig) (refresh_token : String)
    (reply : HttpReply) (now : Int) : Except AuthError TokenSet :=
  match reply with
  | HttpReply.transportError msg => Except.error (AuthError.Request msg)
  | HttpReply.failureStatus status =>
      Except.error (AuthError.TokenExchangeFailed status)
  | HttpReply.success token =>
      let expires_in := token.expires_in.getD 3600
      Except.ok { access_token := token.access_token,
                  refresh_token :=
                    (token.refresh_token).orElse (fun _ => some refresh_token),
                  expires_at := now + expires_in }

/-- Mirrors `handle_callback_url` (lines 265-322).  The guard acquisition
(`ProcessingGuard::lock`, lines 694-705) precedes every pending-state
mutation; `release` models the guard's `Drop` on each exit path. -/
def handle_callback_url (σ : AuthState) (url : CallbackUrl) (now : Int)
    (reply : HttpReply) : AuthState × Except AuthError Unit :=
  if σ.processing then
    (σ, Except.error (AuthError.Storage ("callback already processing")))
  else
    let σg : AuthState := { σ with processing := true }
    let callback_error := extract_query url ("error")
    let callback_error_description := extract_query url ("error_description")
    let returned_state := extract_query url ("state")
    let code := extract_query url ("code")
    match callback_error with
    | some error_code =>
        let σc := clear_pending σg
        match returned_state with
        | none => (release σc, Except.error AuthError.MissingState)
        | some _ =>
            let description :=
              (match callback_error_description with
               | some value => error_code ++ (": ") ++ value
               | none => error_code).replace ("+") (" ")
            (release σc, Except.error (AuthError.AuthorizationDenied description))
    | none =>
        match code with
        | none => (release (clear_pending σg), Except.error AuthError.MissingCode)
        | some code_value =>
            match returned_state with
            | none => (release (clear_pending σg), Except.error AuthError.MissingState)
            | some returned =>
                match consume_pending σg now with
                | (σp, Except.error e) => (release σp, Except.error e)
                | (σp, Except.ok pending) =>
                    if now - pending.created_at_epoch > PENDING_TTL then
                      (release σp, Except.error AuthError.PendingExpired)
                    else if pending.state ≠ returned then
                      (release (clear_pending σp), Except.error AuthError.StateMismatch)
                    else
                      match exchange_code_for_token pending.provider code_value
                              pending.code_verifier reply now with
                      | Except.error e => (release σp, Except.error e)
                      | Except.ok token_set =>
                          let σt := persist_provider (save_tokens σp token_set)
                                      pending.provider
                          (release σt, Except.ok ())

/-- The body of `oauth_refresh_if_needed` (lines 201-233) after the
provider config has been resolved: tokens loaded with vault fallback,
the 60 s refresh window, and the refresh grant with persistence on
success. -/
def refresh_with_provider (σ1 : AuthState) (provider : ProviderConfig)
    (now : Int) (reply : HttpReply) : AuthState × Except AuthError AuthStatus :=
  match load_tokens σ1 with
  | none =>
      (σ1, Except.ok { is_authenticated := false, expires_at := none })
  | some tokens =>
      if tokens.expires_at - now > REFRESH_WINDOW_SECS then
        (σ1, Except.ok { is_authenticated := true,
                         expires_at := some tokens.expires_at })
      else
        match tokens.refresh_token with
        | none => (σ1, Except.error AuthError.RefreshTokenMissing)
        | some refresh_token_value =>
            match refresh_tokens provider refresh_token_value reply now with
            | Except.error e => (σ1, Except.error e)
            | Except.ok refreshed =>
                (save_tokens σ1 refreshed,
                 Except.ok { is_authenticated := true,
                             expires_at := some refreshed.expires_at })

/-- Mirrors `oauth_refresh_if_needed` (lines 177-233): provider from
memory else durable store (caching it in memory), failing with
`ProviderConfigMissing` when neither exists, then the token logic of
`refresh_with_provider`. -/
def oauth_refresh_if_needed (σ : AuthState) (now : Int) (reply : HttpReply) :
    AuthState × Except AuthError AuthStatus :=
  match σ.provider with
  | some p => refresh_with_provider σ p now reply
  | none =>
      match σ.store_provider with
      | some p => refresh_with_provider { σ with provider := some p } p now reply
      | none => (σ, Except.error AuthError.ProviderConfigMissing)

/-- Mirrors `oauth_get_auth_state` (lines 246-263): a pure read of the
persisted token set (the function returns a status and touches no
state, exactly as the Rust command borrows `app` immutably). -/
def oauth_get_auth_state (σ : AuthState) (now : Int) : AuthStatus :=
  match load_tokens σ with
  | some tokens =>
      { is_authenticated := decide (tokens.expires_at > now),
        expires_at := some tokens.expires_at }
  | none => { is_authenticated := false, expires_at := none }

/-- The pending record `consume_pending` would yield, independent of the
consumption time: from memory the epoch creation time is rebuilt as
`now_epoch - elapsed`, which equals the creation time itself. -/
def pending_record_of (σ : AuthState) : Option PendingAuthRecord :=
  match σ.pending with
  | some p =>
      some { state := p.state, code_verifier := p.code_verifier,
             provider := p.provider, created_at_epoch := p.created_at }
  | none => σ.store_pending

/-- Keep only the first occurrence of each query key: the (key, value)
pairs that `extract_query` can ever surface from a query string. -/
def dedup_query : List (String × String) → List (String × String)
  | [] => []
  | p :: rest => p :: dedup_query (rest.filter (fun q => !(q.1 == p.1)))
termination_by l => l.length
decreasing_by
  simp only [List.length_cons]
  exact Nat.lt_succ_of_le (List.length_filter_le _ _)

/-! Concrete sample values used by the witness theorems. -/

def demo_provider : ProviderConfig :=
  { client_id := ("abc"), client_secret := none,
    authorization_endpoint := ("https://idp.example/authorize"),
    token_endpoint := ("https://idp.example/token"),
    redirect_uri := ("vision://auth/callback"),
    scopes := [("read")], extra_auth_params := none,
    extra_token_params := none }

def demo_pending : PendingAuthRecord :=
  { state := ("st1"), code_verifier := ("ver1"),
    provider := demo_provider, created_at_epoch := 100 }

def demo_state : AuthState :=
  { pending := none, processing := false, provider := some demo_provider,
    store_pending := some demo_pending, store_provider := some demo_provider,
    store_tokens := none, vault_tokens := none, vault_writable := true }

def demo_url : CallbackUrl :=
  { query_pairs := [(("code"), ("xyz")), (("state"), ("st1"))] }

def demo_reply : HttpReply :=
  HttpReply.success { access_token := ("tok"), refresh_token := none,
                      expires_in := some 3600 }

def demo_tokens : TokenSet :=
  { access_token := ("tok"), refresh_token := some ("rtok"), expires_at := 1000 }

def demo_state_tok : AuthState :=
  { demo_state with vault_tokens := some demo_tokens }

def demo_token_response : TokenResponse :=
  { access_token := ("tok2"), refresh_token := none, expires_in := some 3600 }

/-! Helper lemmas about the state primitives. -/

lemma pending_record_of_set_processing (σ : AuthState) (b : Bool) :
    pending_record_of { σ with processing := b } = pending_record_of σ := rfl

lemma consume_pending_eq_some (σ : AuthState) (now : Int)
    (p : PendingAuthRecord) (h : pending_record_of σ = some p) :
    consume_pending σ now
      = ({ σ with pending := none, store_pending := none }, Except.ok p) := by
  unfold pending_record_of at h
  unfold consume_pending
  cases hm : σ.pending with
  | some pa =>
      simp only [hm, Option.some.injEq] at h
      subst h
      simp [clear_pending_store]
  | none =>
      simp only [hm] at h
      cases hs : σ.store_pending with
      | some stored =>
          simp only [hs, Option.some.injEq] at h
          subst h
          simp [clear_pending_store]
      | none => simp [hs] at h

lemma consume_pending_eq_none (σ : AuthState) (now : Int)
    (h : pending_record_of σ = none) :
    consume_pending σ now
      = ({ σ with pending := none }, Except.error AuthError.NoPendingState) := by
  unfold pending_record_of at h
  unfold consume_pending
  cases hm : σ.pending with
  | some pa => simp [hm] at h
  | none =>
      simp only [hm] at h
      simp [hm, h]

lemma pending_record_of_eq_none (σ : AuthState)
    (hm : σ.pending = none) (hs : σ.store_pending = none) :
    pending_record_of σ = none := by
  unfold pending_record_of
  simp [hm, hs]

@[simp] lemma release_pending (σ : AuthState) : (release σ).pending = σ.pending := rfl

@[simp] lemma release_store_pending (σ : AuthState) :
    (release σ).store_pending = σ.store_pending := rfl

@[simp] lemma release_processing (σ : AuthState) : (release σ).processing = false := rfl

@[simp] lemma clear_pending_pending (σ : AuthState) : (clear_pending σ).pending = none := rfl

@[simp] lemma clear_pending_store_pending (σ : AuthState) :
    (clear_pending σ).store_pending = none := rfl

@[simp] lemma save_tokens_pending (σ : AuthState) (t : TokenSet) :
    (save_tokens σ t).pending = σ.pending := by
  unfold save_tokens; split <;> rfl

@[simp] lemma save_tokens_store_pending (σ : AuthState) (t : TokenSet) :
    (save_tokens σ t).store_pending = σ.store_pending := by
  unfold save_tokens; split <;> rfl

@[simp] lemma persist_provider_pending (σ : AuthState) (pv : ProviderConfig) :
    (persist_provider σ pv).pending = σ.pending := rfl

@[simp] lemma persist_provider_store_pending (σ : AuthState) (pv : ProviderConfig) :
    (persist_provider σ pv).store_pending = σ.store_pending := rfl

/-- After a callback that reaches and succeeds at `consume_pending`
(no error parameter, code and state present, a pending record available),
the resulting state has the processing flag released and both pending
copies gone, whatever the expiry check, state comparison and exchange do. -/
lemma handle_callback_post_consumed (σ : AuthState) (url : CallbackUrl)
    (now : Int) (reply : HttpReply) (c s : String) (p : PendingAuthRecord)
    (hproc : σ.processing = false)
    (herr : extract_query url ("error") = none)
    (hcode : extract_query url ("code") = some c)
    (hstate : extract_query url ("state") = some s)
    (hpend : pending_record_of σ = some p) :
    (handle_callback_url σ url now reply).1.processing = false ∧
    (handle_callback_url σ url now reply).1.pending = none ∧
    (handle_callback_url σ url now reply).1.store_pending = none := by
  have hc : consume_pending { σ with processing := true } now
      = ({ σ with processing := true, pending := none, store_pending := none },
         Except.ok p) :=
    consume_pending_eq_some _ now p
      (by simpa [pending_record_of_set_processing] using hpend)
  simp only [handle_callback_url, hproc, herr, hcode, hstate, hc]
  simp only [Bool.false_eq_true, if_false]
  split
  · simp
  · split
    · simp
    · cases hex : exchange_code_for_token p.provider c p.code_verifier reply now with
      | error e => simp [hex]
      | ok t => simp [hex]

/-- A callback with code and state but neither an in-memory nor a durable
pending record fails with `NoPendingState` and leaves the state intact. -/
lemma handle_callback_no_pending (σ : AuthState) (url : CallbackUrl)
    (now : Int) (reply : HttpReply) (c s : String)
    (hproc : σ.processing = false)
    (herr : extract_query url ("error") = none)
    (hcode : extract_query url ("code") = some c)
    (hstate : extract_query url ("state") = some s)
    (hpend : pending_record_of σ = none) :
    handle_callback_url σ url now reply
      = (σ, Except.error AuthError.NoPendingState) := by
  have hm : σ.pending = none := by
    unfold pending_record_of at hpend
    cases hm : σ.pending with
    | some pa => simp [hm] at hpend
    | none => rfl
  have hc : consume_pending { σ with processing := true } now
      = ({ σ with processing := true, pending := none },
         Except.error AuthError.NoPendingState) :=
    consume_pending_eq_none _ now
      (by simpa [pending_record_of_set_processing] using hpend)
  simp only [handle_callback_url, hproc, herr, hcode, hstate, hc]
  obtain ⟨pm, pr, pv, sp, spv, st, vt, vw⟩ := σ
  simp only at hproc hm
  subst hproc hm
  simp [release]

/-- Claim C1: once a callback URL carrying code and state has been
consumed (the pending record taken from memory and the durable copy
deleted), a second invocation of `handle_callback_url` with the same URL
fails with `NoPendingState`, whatever the time and token-endpoint reply
of either invocation. -/
theorem callback_replay_fails_no_pending (σ : AuthState) (url : CallbackUrl)
    (now now2 : Int) (reply reply2 : HttpReply) (c s : String)
    (p : PendingAuthRecord)
    (hproc : σ.processing = false)
    (herr : extract_query url ("error") = none)
    (hcode : extract_query url ("code") = some c)
    (hstate : extract_query url ("state") = some s)
    (hpend : pending_record_of σ = some p) :
    handle_callback_url (handle_callback_url σ url now reply).1 url now2 reply2
      = ((handle_callback_url σ url now reply).1,
         Except.error AuthError.NoPendingState) := by
  obtain ⟨h1, h2, h3⟩ :=
    handle_callback_post_consumed σ url now reply c s p hproc herr hcode hstate hpend
  exact handle_callback_no_pending _ url now2 reply2 c s h1 herr hcode hstate
    (pending_record_of_eq_none _ h2 h3)

/-- Witness for C1: a concrete consumed callback replayed once. -/
theorem callback_replay_fails_no_pending_witness :
    handle_callback_url (handle_callback_url demo_state demo_url 100 demo_reply).1
        demo_url 100 demo_reply
      = ((handle_callback_url demo_state demo_url 100 demo_reply).1,
         Except.error AuthError.NoPendingState) :=
  callback_replay_fails_no_pending demo_state demo_url 100 100 demo_reply demo_reply
    ("xyz") ("st1") demo_pending rfl (by decide) (by decide) (by decide) rfl

/-- Claim C4: a callback whose state parameter differs from the pending
record's state (with the flow reaching the comparison: guard free, no
error parameter, code and state present, record consumable and within
its TTL) fails with `StateMismatch`, and afterwards neither the
in-memory nor the durable pending record exists. -/
theorem callback_state_mismatch_clears_pending (σ : AuthState)
    (url : CallbackUrl) (now : Int) (reply : HttpReply) (c s : String)
    (p : PendingAuthRecord)
    (hproc : σ.processing = false)
    (herr : extract_query url ("error") = none)
    (hcode : extract_query url ("code") = some c)
    (hstate : extract_query url ("state") = some s)
    (hpend : pending_record_of σ = some p)
    (hfresh : now - p.created_at_epoch ≤ PENDING_TTL)
    (hmismatch : p.state ≠ s) :
    (handle_callback_url σ url now reply).2
      = Except.error AuthError.StateMismatch ∧
    (handle_callback_url σ url now reply).1.pending = none ∧
    (handle_callback_url σ url now reply).1.store_pending = none := by
  have hc : consume_pending { σ with processing := true } now
      = ({ σ with processing := true, pending := none, store_pending := none },
         Except.ok p) :=
    consume_pending_eq_some _ now p
      (by simpa [pending_record_of_set_processing] using hpend)
  have hnotgt : ¬ now - p.created_at_epoch > PENDING_TTL := by omega
  simp only [handle_callback_url, hproc, herr, hcode, hstate, hc]
  simp [hnotgt, hmismatch]

/-- Witness for C4: a concrete callback whose state differs from the
pending record's. -/
theorem callback_state_mismatch_clears_pending_witness :
    (handle_callback_url demo_state
        { query_pairs := [(("code"), ("xyz")), (("state"), ("forged"))] }
        100 demo_reply).2 = Except.error AuthError.StateMismatch ∧
    (handle_callback_url demo_state
        { query_pairs := [(("code"), ("xyz")), (("state"), ("forged"))] }
        100 demo_reply).1.pending = none ∧
    (handle_callback_url demo_state
        { query_pairs := [(("code"), ("xyz")), (("state"), ("forged"))] }
        100 demo_reply).1.store_pending = none :=
  callback_state_mismatch_clears_pending demo_state
    { query_pairs := [(("code"), ("xyz")), (("state"), ("forged"))] }
    100 demo_reply ("xyz") ("forged") demo_pending rfl (by decide) (by decide)
    (by decide) rfl (by decide) (by decide)

/-- Claim C5: a pending record created at epoch T, consumed by a
well-formed callback at T+601 s, fails with `PendingExpired` and the
record is not restored (both copies are gone); at T+599 s the expiry
check passes and the flow proceeds to the state comparison and, when the
states match, through the token exchange (a successful exchange
completes with `ok`). -/
theorem pending_ttl_boundary (σ : AuthState) (url : CallbackUrl)
    (reply : HttpReply) (c s : String) (p : PendingAuthRecord)
    (hproc : σ.processing = false)
    (herr : extract_query url ("error") = none)
    (hcode : extract_query url ("code") = some c)
    (hstate : extract_query url ("state") = some s)
    (hpend : pending_record_of σ = some p) :
    ((handle_callback_url σ url (p.created_at_epoch + 601) reply).2
        = Except.error AuthError.PendingExpired ∧
     (handle_callback_url σ url (p.created_at_epoch + 601) reply).1.pending = none ∧
     (handle_callback_url σ url (p.created_at_epoch + 601) reply).1.store_pending
        = none) ∧
    (p.state = s → ∀ tok, (handle_callback_url σ url (p.created_at_epoch + 599)
        (HttpReply.success tok)).2 = Except.ok ()) ∧
    (p.state ≠ s → (handle_callback_url σ url (p.created_at_epoch + 599) reply).2
        = Except.error AuthError.StateMismatch) := by
  have hc601 : consume_pending { σ with processing := true } (p.created_at_epoch + 601)
      = ({ σ with processing := true, pending := none, store_pending := none },
         Except.ok p) :=
    consume_pending_eq_some _ _ p
      (by simpa [pending_record_of_set_processing] using hpend)
  have hc599 : consume_pending { σ with processing := true } (p.created_at_epoch + 599)
      = ({ σ with processing := true, pending := none, store_pending := none },
         Except.ok p) :=
    consume_pending_eq_some _ _ p
      (by simpa [pending_record_of_set_processing] using hpend)
  refine ⟨?_, ?_, ?_⟩
  · simp only [handle_callback_url, hproc, herr, hcode, hstate, hc601]
    simp [PENDING_TTL]
  · intro hps tok
    simp only [handle_callback_url, hproc, herr, hcode, hstate, hc599]
    simp [PENDING_TTL, hps, exchange_code_for_token]
  · intro hps
    simp only [handle_callback_url, hproc, herr, hcode, hstate, hc599]
    simp [PENDING_TTL, hps]

/-- Witness for C5: the concrete boundary at the demo pending record
(created at epoch 100, consumed at 701 and at 699). -/
theorem pending_ttl_boundary_witness :
    (handle_callback_url demo_state demo_url
        (demo_pending.created_at_epoch + 601) demo_reply).2
      = Except.error AuthError.PendingExpired ∧
    (handle_callback_url demo_state demo_url
        (demo_pending.created_at_epoch + 599)
        (HttpReply.success { access_token := ("tok"), refresh_token := none,
                             expires_in := some 3600 })).2 = Except.ok () :=
  ⟨(pending_ttl_boundary demo_state demo_url demo_reply ("xyz") ("st1")
      demo_pending rfl (by decide) (by decide) (by decide) rfl).1.1,
   (pending_ttl_boundary demo_state demo_url demo_reply ("xyz") ("st1")
      demo_pending rfl (by decide) (by decide) (by decide) rfl).2.1 rfl _⟩

/-- Claim C2: when the processing flag is already set, `handle_callback_url`
fails immediately with the "callback already processing" error and the
whole state — in particular the in-memory and durable pending records —
is left completely unchanged. -/
theorem callback_already_processing_unchanged (σ : AuthState)
    (url : CallbackUrl) (now : Int) (reply : HttpReply)
    (hproc : σ.processing = true) :
    handle_callback_url σ url now reply
      = (σ, Except.error (AuthError.Storage ("callback already processing"))) := by
  simp [handle_callback_url, hproc]

/-- Witness for C2 at a concrete state with the flag set. -/
theorem callback_already_processing_unchanged_witness :
    handle_callback_url { demo_state with processing := true } demo_url 100 demo_reply
      = ({ demo_state with processing := true },
         Except.error (AuthError.Storage ("callback already processing"))) :=
  callback_already_processing_unchanged
    { demo_state with processing := true } demo_url 100 demo_reply rfl

/-- Claim C3: a callback URL carrying an `error` parameter clears the
pending state (in-memory and durable) and fails: with `MissingState` when
no `state` parameter is present, otherwise with `AuthorizationDenied`
whose description is "error: error_description" (or just the error code
when no description is present) with every plus sign replaced by a
space. -/
theorem callback_error_param_clears_then_fails (σ : AuthState)
    (url : CallbackUrl) (now : Int) (reply : HttpReply) (error_code : String)
    (hproc : σ.processing = false)
    (herr : extract_query url ("error") = some error_code) :
    (handle_callback_url σ url now reply).1.pending = none ∧
    (handle_callback_url σ url now reply).1.store_pending = none ∧
    (handle_callback_url σ url now reply).2
      = Except.error (match extract_query url ("state") with
          | none => AuthError.MissingState
          | some _ => AuthError.AuthorizationDenied
              ((match extract_query url ("error_description") with
                | some value => error_code ++ (": ") ++ value
                | none => error_code).replace ("+") (" "))) := by
  cases hst : extract_query url ("state") with
  | none =>
      simp [handle_callback_url, hproc, herr, hst, clear_pending, release]
  | some s =>
      simp [handle_callback_url, hproc, herr, hst, clear_pending, release]

/-- Witness for C3: a denial callback with state present and a
plus-separated description. -/
theorem callback_error_param_clears_then_fails_witness :
    (handle_callback_url demo_state
        { query_pairs := [(("error"), ("access_denied")),
                          (("error_description"), ("user+declined")),
                          (("state"), ("st1"))] } 100 demo_reply).1.pending = none ∧
    (handle_callback_url demo_state
        { query_pairs := [(("error"), ("access_denied")),
                          (("error_description"), ("user+declined")),
                          (("state"), ("st1"))] } 100 demo_reply).1.store_pending = none ∧
    (handle_callback_url demo_state
        { query_pairs := [(("error"), ("access_denied")),
                          (("error_description"), ("user+declined")),
                          (("state"), ("st1"))] } 100 demo_reply).2
      = Except.error (match extract_query
            { query_pairs := [(("error"), ("access_denied")),
                              (("error_description"), ("user+declined")),
                              (("state"), ("st1"))] } ("state") with
          | none => AuthError.MissingState
          | some _ => AuthError.AuthorizationDenied
              ((match extract_query
                  { query_pairs := [(("error"), ("access_denied")),
                                    (("error_description"), ("user+declined")),
                                    (("state"), ("st1"))] } ("error_description") with
                | some value => ("access_denied") ++ (": ") ++ value
                | none => ("access_denied")).replace ("+") (" "))) :=
  callback_error_param_clears_then_fails demo_state
    { query_pairs := [(("error"), ("access_denied")),
                      (("error_description"), ("user+declined")),
                      (("state"), ("st1"))] } 100 demo_reply ("access_denied")
    rfl (by decide)

lemma load_tokens_set_provider (σ : AuthState) (p : ProviderConfig) :
    load_tokens { σ with provider := some p } = load_tokens σ := rfl

/-- Behaviour of the post-provider-resolution refresh body on a stored
token set: stand pat outside the refresh window, `RefreshTokenMissing`
inside the window without a refresh token, and otherwise the refresh
grant followed by `save_tokens`. -/
lemma refresh_with_provider_spec (σ1 : AuthState) (pv : ProviderConfig)
    (now : Int) (reply : HttpReply) (tokens : TokenSet)
    (htok : load_tokens σ1 = some tokens) :
    (tokens.expires_at - now > REFRESH_WINDOW_SECS →
      refresh_with_provider σ1 pv now reply
        = (σ1, Except.ok { is_authenticated := true,
                           expires_at := some tokens.expires_at })) ∧
    (tokens.expires_at - now ≤ REFRESH_WINDOW_SECS →
      tokens.refresh_token = none →
      refresh_with_provider σ1 pv now reply
        = (σ1, Except.error AuthError.RefreshTokenMissing)) ∧
    (∀ rt tok, tokens.expires_at - now ≤ REFRESH_WINDOW_SECS →
      tokens.refresh_token = some rt →
      refresh_with_provider σ1 pv now (HttpReply.success tok)
        = (save_tokens σ1
             { access_token := tok.access_token,
               refresh_token := (tok.refresh_token).orElse (fun _ => some rt),
               expires_at := now + tok.expires_in.getD 3600 },
           Except.ok { is_authenticated := true,
                       expires_at := some (now + tok.expires_in.getD 3600) })) := by
  refine ⟨?_, ?_, ?_⟩
  · intro hgt
    simp [refresh_with_provider, htok, hgt]
  · intro hle hn
    have hc : ¬ tokens.expires_at - now > REFRESH_WINDOW_SECS := by omega
    simp [refresh_with_provider, htok, hc, hn]
  · intro rt tok hle hrt
    have hc : ¬ tokens.expires_at - now > REFRESH_WINDOW_SECS := by omega
    simp [refresh_with_provider, htok, hc, hrt, refresh_tokens]

/-- Claim C6: `oauth_refresh_if_needed` on a stored token set leaves
everything alone and reports the current status when more than the 60 s
refresh window remains (its outcome does not even depend on the
token-endpoint reply); within the window it fails with
`RefreshTokenMissing` when no refresh token is stored, and otherwise
performs the refresh grant and persists a token set whose `expires_at`
is now + the reply's `expires_in`. -/
theorem refresh_if_needed_window (σ : AuthState) (now : Int)
    (reply : HttpReply) (tokens : TokenSet)
    (hprov : σ.provider.isSome ∨ σ.store_provider.isSome)
    (htok : load_tokens σ = some tokens) :
    (tokens.expires_at - now > REFRESH_WINDOW_SECS →
      (oauth_refresh_if_needed σ now reply).2
        = Except.ok { is_authenticated := true,
                      expires_at := some tokens.expires_at } ∧
      (oauth_refresh_if_needed σ now reply).1.vault_tokens = σ.vault_tokens ∧
      (oauth_refresh_if_needed σ now reply).1.store_tokens = σ.store_tokens ∧
      ∀ reply2, oauth_refresh_if_needed σ now reply2
        = oauth_refresh_if_needed σ now reply) ∧
    (tokens.expires_at - now ≤ REFRESH_WINDOW_SECS →
      tokens.refresh_token = none →
      (oauth_refresh_if_needed σ now reply).2
        = Except.error AuthError.RefreshTokenMissing) ∧
    (∀ rt tok n, tokens.expires_at - now ≤ REFRESH_WINDOW_SECS →
      tokens.refresh_token = some rt → tok.expires_in = some n →
      ∃ ts, (oauth_refresh_if_needed σ now (HttpReply.success tok)).2
              = Except.ok { is_authenticated := true,
                            expires_at := some (now + n) } ∧
            ((oauth_refresh_if_needed σ now (HttpReply.success tok)).1.vault_tokens
                = some ts ∨
             (oauth_refresh_if_needed σ now (HttpReply.success tok)).1.store_tokens
                = some ts) ∧
            ts.expires_at = now + n) := by
  obtain ⟨σ1, pv, hrun, hload, hvault, hstore, hwritable⟩ :
      ∃ (σ1 : AuthState) (pv : ProviderConfig),
        (∀ r, oauth_refresh_if_needed σ now r = refresh_with_provider σ1 pv now r) ∧
        load_tokens σ1 = some tokens ∧
        σ1.vault_tokens = σ.vault_tokens ∧
        σ1.store_tokens = σ.store_tokens ∧
        σ1.vault_writable = σ.vault_writable := by
    rcases hp : σ.provider with _ | pv
    · rcases hsp : σ.store_provider with _ | pv
      · rcases hprov with h | h <;> simp [hp, hsp] at h
      · exact ⟨{ σ with provider := some pv }, pv,
          fun r => by simp [oauth_refresh_if_needed, hp, hsp], htok, rfl, rfl, rfl⟩
    · exact ⟨σ, pv, fun r => by simp [oauth_refresh_if_needed, hp], htok, rfl, rfl, rfl⟩
  refine ⟨?_, ?_, ?_⟩
  · intro hgt
    have heq : ∀ r2, oauth_refresh_if_needed σ now r2
        = (σ1, Except.ok { is_authenticated := true,
                           expires_at := some tokens.expires_at }) := by
      intro r2
      rw [hrun r2, (refresh_with_provider_spec σ1 pv now r2 tokens hload).1 hgt]
    refine ⟨by rw [heq reply], ?_, ?_, fun r2 => by rw [heq r2, heq reply]⟩
    · rw [heq reply]; exact hvault
    · rw [heq reply]; exact hstore
  · intro hle hn
    rw [hrun reply, (refresh_with_provider_spec σ1 pv now reply tokens hload).2.1 hle hn]
  · intro rt tok n hle hrt hn
    have h3 := (refresh_with_provider_spec σ1 pv now reply tokens hload).2.2 rt tok hle hrt
    refine ⟨{ access_token := tok.access_token,
              refresh_token := (tok.refresh_token).orElse (fun _ => some rt),
              expires_at := now + n }, ?_, ?_, rfl⟩
    · rw [hrun _, h3]
      simp [hn]
    · rw [hrun _, h3]
      by_cases hv : σ1.vault_writable
      · left; simp [save_tokens, hv, hn]
      · right; simp [save_tokens, hv, hn]

/-- Witness for C6: a token expiring at 1000 is untouched at now = 0 and
refreshed (and persisted with expiry 950 + 3600) at now = 950. -/
theorem refresh_if_needed_window_witness :
    (oauth_refresh_if_needed demo_state_tok 0 demo_reply).2
      = Except.ok { is_authenticated := true, expires_at := some 1000 } ∧
    ∃ ts, (oauth_refresh_if_needed demo_state_tok 950
              (HttpReply.success demo_token_response)).2
            = Except.ok { is_authenticated := true,
                          expires_at := some (950 + 3600) } ∧
          ((oauth_refresh_if_needed demo_state_tok 950
              (HttpReply.success demo_token_response)).1.vault_tokens = some ts ∨
           (oauth_refresh_if_needed demo_state_tok 950
              (HttpReply.success demo_token_response)).1.store_tokens = some ts) ∧
          ts.expires_at = 950 + 3600 :=
  ⟨((refresh_if_needed_window demo_state_tok 0 demo_reply demo_tokens
      (Or.inl rfl) rfl).1 (by decide)).1,
   (refresh_if_needed_window demo_state_tok 950
      (HttpReply.success demo_token_response) demo_tokens
      (Or.inl rfl) rfl).2.2 ("rtok") demo_token_response 3600
      (by decide) rfl rfl⟩

/-- Claim C7: a successful refresh-grant reply that omits `refresh_token`
yields a token set carrying the previous refresh token forward unchanged;
a reply that includes one replaces it. -/
theorem refresh_token_carry_forward (pv : ProviderConfig) (rt : String)
    (now : Int) (tok : TokenResponse) :
    (tok.refresh_token = none →
      ∃ ts, refresh_tokens pv rt (HttpReply.success tok) now = Except.ok ts ∧
            ts.refresh_token = some rt) ∧
    (∀ r, tok.refresh_token = some r →
      ∃ ts, refresh_tokens pv rt (HttpReply.success tok) now = Except.ok ts ∧
            ts.refresh_token = some r) := by
  constructor
  · intro h
    refine ⟨{ access_token := tok.access_token,
              refresh_token := (tok.refresh_token).orElse (fun _ => some rt),
              expires_at := now + tok.expires_in.getD 3600 }, rfl, ?_⟩
    simp [h, Option.orElse]
  · intro r h
    refine ⟨{ access_token := tok.access_token,
              refresh_token := (tok.refresh_token).orElse (fun _ => some rt),
              expires_at := now + tok.expires_in.getD 3600 }, rfl, ?_⟩
    simp [h, Option.orElse]

/-- Witness for C7: carrying the previous token "old" through a reply
without a refresh token. -/
theorem refresh_token_carry_forward_witness :
    ∃ ts, refresh_tokens demo_provider ("old")
            (HttpReply.success demo_token_response) 0 = Except.ok ts ∧
          ts.refresh_token = some ("old") :=
  (refresh_token_carry_forward demo_provider ("old") 0 demo_token_response).1 rfl

/-- Claim C9: `oauth_get_auth_state` is a pure read of the persisted
token set (it returns a status and leaves the state untouched by
construction): authenticated exactly when a token set is stored with
`expires_at > now` — no refresh-window grace, so `expires_at ≤ now`
(including equality) reports unauthenticated — and with no stored token
set it reports unauthenticated with no expiry. -/
theorem get_auth_state_pure_read (σ : AuthState) (now : Int) :
    ((oauth_get_auth_state σ now).is_authenticated = true
        ↔ ∃ ts, load_tokens σ = some ts ∧ now < ts.expires_at) ∧
    (load_tokens σ = none →
      oauth_get_auth_state σ now
        = { is_authenticated := false, expires_at := none }) ∧
    (∀ ts, load_tokens σ = some ts → ts.expires_at ≤ now →
      (oauth_get_auth_state σ now).is_authenticated = false) := by
  cases h : load_tokens σ with
  | none => simp [oauth_get_auth_state, h]
  | some ts =>
      refine ⟨?_, by simp [h], ?_⟩
      · simp [oauth_get_auth_state, h]
      · intro ts2 h2 hle
        have hts : ts = ts2 := Option.some_inj.mp h2
        subst hts
        simp only [oauth_get_auth_state, h, decide_eq_false_iff_not]
        omega

/-- Witness for C9: the no-token state reports unauthenticated. -/
theorem get_auth_state_pure_read_witness :
    oauth_get_auth_state demo_state 100
      = { is_authenticated := false, expires_at := none } :=
  (get_auth_state_pure_read demo_state 100).2.1 rfl

lemma find?_filter_key_ne (a k : String) (h : a ≠ k)
    (l : List (String × String)) :
    (l.filter (fun q => !(q.1 == a))).find? (fun q => q.1 == k)
      = l.find? (fun q => q.1 == k) := by
  induction l with
  | nil => simp
  | cons q rest ih =>
      by_cases hk : q.1 = k
      · have hka : ¬ k = a := fun hh => h hh.symm
        have ha : ¬ q.1 = a := by rw [hk]; exact hka
        simp [List.filter_cons, List.find?_cons, hk, ha, hka]
      · by_cases ha : q.1 = a
        · simp [List.filter_cons, List.find?_cons, hk, ha, h, ih]
        · simp [List.filter_cons, List.find?_cons, hk, ha, ih]

lemma find?_dedup (k : String) (l : List (String × String)) :
    (dedup_query l).find? (fun q => q.1 == k)
      = l.find? (fun q => q.1 == k) := by
  match l with
  | [] => simp [dedup_query]
  | p :: rest =>
      by_cases hk : p.1 = k
      · simp [dedup_query, List.find?_cons, hk]
      · have ih := find?_dedup k (rest.filter (fun q => !(q.1 == p.1)))
        simp [dedup_query, List.find?_cons, hk, ih,
              find?_filter_key_ne p.1 k hk rest]
termination_by l.length
decreasing_by
  simp only [List.length_cons]
  exact Nat.lt_succ_of_le (List.length_filter_le _ _)

lemma extract_query_dedup (l : List (String × String)) (k : String) :
    extract_query { query_pairs := dedup_query l } k
      = extract_query { query_pairs := l } k := by
  simp [extract_query, find?_dedup]

lemma find?_append_first (ps qs : List (String × String)) (k v : String)
    (h : ∀ q ∈ ps, q.1 ≠ k) :
    (ps ++ (k, v) :: qs).find? (fun p => p.1 == k) = some (k, v) := by
  induction ps with
  | nil => simp [List.find?_cons]
  | cons q rest ih =>
      have hq : ¬ q.1 = k := h q (by simp)
      have hbe : (q.1 == k) = false := by simp [hq]
      simp only [List.cons_append, List.find?_cons, hbe]
      exact ih (fun p hp => h p (by simp [hp]))

lemma extract_query_first (ps qs : List (String × String)) (k v : String)
    (h : ∀ q ∈ ps, q.1 ≠ k) :
    extract_query { query_pairs := ps ++ (k, v) :: qs } k = some v := by
  unfold extract_query
  rw [find?_append_first ps qs k v h]
  rfl

/-- Claim C10: the callback handler reads each query parameter through
`extract_query`, which takes the first occurrence of a key: the handler's
behavior is unchanged when every later duplicate occurrence of a key
(in particular of error, error_description, state and code) is dropped,
and a key's extracted value is the first occurrence's value. -/
theorem callback_first_query_occurrence (σ : AuthState) (u : CallbackUrl)
    (now : Int) (reply : HttpReply) :
    handle_callback_url σ { query_pairs := dedup_query u.query_pairs } now reply
      = handle_callback_url σ u now reply ∧
    ∀ ps qs k v, u.query_pairs = ps ++ (k, v) :: qs →
      (∀ q ∈ ps, q.1 ≠ k) → extract_query u k = some v := by
  constructor
  · have hq : ∀ key, extract_query { query_pairs := dedup_query u.query_pairs } key
        = extract_query u key := by
      intro key
      have : extract_query { query_pairs := u.query_pairs } key
          = extract_query u key := rfl
      rw [extract_query_dedup, this]
    simp only [handle_callback_url, hq]
  · intro ps qs k v hu h
    obtain ⟨pairs⟩ := u
    simp only at hu
    subst hu
    exact extract_query_first ps qs k v h

/-- Witness for C10: with two state parameters the first one wins, and
deduplicating the query leaves the handler's outcome unchanged. -/
theorem callback_first_query_occurrence_witness :
    handle_callback_url demo_state
        { query_pairs := dedup_query [(("state"), ("first")),
                                      (("state"), ("second")),
                                      (("code"), ("xyz"))] } 100 demo_reply
      = handle_callback_url demo_state
          { query_pairs := [(("state"), ("first")), (("state"), ("second")),
                            (("code"), ("xyz"))] } 100 demo_reply ∧
    extract_query { query_pairs := [(("state"), ("first")),
                                    (("state"), ("second")),
                                    (("code"), ("xyz"))] } ("state")
      = some ("first") :=
  ⟨(callback_first_query_occurrence demo_state
      { query_pairs := [(("state"), ("first")), (("state"), ("second")),
                        (("code"), ("xyz"))] } 100 demo_reply).1,
   (callback_first_query_occurrence demo_state
      { query_pairs := [(("state"), ("first")), (("state"), ("second")),
                        (("code"), ("xyz"))] } 100 demo_reply).2
     [] [(("state"), ("second")), (("code"), ("xyz"))]
     ("state") ("first") rfl (by simp)⟩

end VisionAuth
